import Mathlib

/-!
Verification of the `ClientTcpSocket` connection core of `soa/service/tcp_socket.h`.

The repository ships only the header `src/service/tcp_socket.h`: it declares the
enums, the member fields and the member functions, but the member-function
bodies live in a translation unit that is not part of the repository. The
enums, the field list and the constructor default arguments below are taken
directly from the header; every operation body is modelled from the spec, as
marked in its doc comment.

Modelling conventions:
- byte buffers are `List Nat`;
- the event-loop is sequential here, so the atomic `remainingMsgs_` mirror of
  the queue depth coincides with `threadBuffer_.length` and is not duplicated;
- callback invocations are reified as a trace of `Event` values emitted by each
  operation, so "the callback fires exactly once" becomes a statement about the
  emitted list;
- fields of the header that no claim touches (`address_`, `port_`, `noNagle_`,
  `writeReady_`, the epoll plumbing and the wakeup fd) are elided.
-/

namespace Datacratic

/-- Connection-result codes, from `tcp_socket.h` lines 29-35. -/
inductive ConnectionResult where
  | SUCCESS
  | UNKNOWN_ERROR
  | COULD_NOT_CONNECT
  | HOST_UNKNOWN
  | TIMEOUT
  deriving DecidableEq, Repr

/-- The numeric values the header assigns to `ConnectionResult`. -/
def ConnectionResult.toCode : ConnectionResult → Nat
  | .SUCCESS => 0
  | .UNKNOWN_ERROR => 1
  | .COULD_NOT_CONNECT => 2
  | .HOST_UNKNOWN => 3
  | .TIMEOUT => 4

/-- Connection states, from `tcp_socket.h` lines 40-45. -/
inductive ClientTcpSocketState where
  | DISCONNECTED
  | CONNECTING
  | CONNECTED
  | DISCONNECTING
  deriving DecidableEq, Repr

/-- A callback invocation or socket-handle release performed by the
connection, reified as data. One constructor per callback of the header
(`onConnectionResult`, `onDisconnected`, `onWriteResult`, `onReceivedData`),
plus `fdClosed` marking the release of the socket handle by `closeFd`. -/
inductive Event where
  | connectionResult (result : ConnectionResult)
  | disconnected (fromPeer : Bool)
  | writeResult (error : Nat) (written : List Nat) (writtenSize : Nat)
  | receivedData (data : List Nat)
  | fdClosed (fd : Nat)
  deriving DecidableEq, Repr

/-- Recognizer for `Event.disconnected`. -/
def Event.isDisconnected : Event → Bool
  | .disconnected _ => true
  | _ => false

/-- Recognizer for `Event.fdClosed`. -/
def Event.isFdClosed : Event → Bool
  | .fdClosed _ => true
  | _ => false

/-- Recognizer for `Event.connectionResult`. -/
def Event.isConnectionResult : Event → Bool
  | .connectionResult _ => true
  | _ => false

/-- The bytes delivered by an `Event.receivedData`, `none` for other events. -/
def Event.receivedBytes : Event → Option (List Nat)
  | .receivedData d => some d
  | _ => none

/-- The connection object, fields from `tcp_socket.h` lines 177-193:
`state_`, `socket_` (an owned handle, `none` while invalid), the bounded
send-queue `threadBuffer_` with its construction-time capacity `maxMessages`,
`recvBufSize_`, the in-flight write cursor (`currentLine_`, `currentSent_`)
and the three counters. `closePending` is the spec's pending-close flag set by
`requestClose`. -/
structure ClientTcpSocket where
  state_ : ClientTcpSocketState
  socket_ : Option Nat
  closePending : Bool
  threadBuffer_ : List (List Nat)
  maxMessages : Nat
  recvBufSize_ : Nat
  currentLine_ : Option (List Nat)
  currentSent_ : Nat
  bytesSent_ : Nat
  msgsSent_ : Nat
  msgsReceived_ : Nat
  deriving DecidableEq, Repr

/-- Default write-queue capacity, from the header's constructor default
argument (`tcp_socket.h` line 66). -/
def defaultMaxMessages : Nat := 32

/-- Default receive-buffer size, from the header's constructor default
argument (`tcp_socket.h` line 67). -/
def defaultRecvBufSize : Nat := 65536

/-- Modelled from the spec: the constructor body is not under `src/`; a
connection is constructed DISCONNECTED with no socket, an empty queue and
zeroed counters; the capacity and receive-buffer size are the constructor
arguments (`tcp_socket.h` lines 61-67). -/
def mkClientTcpSocket (maxMessages recvBufSize : Nat) : ClientTcpSocket :=
  { state_ := ClientTcpSocketState.DISCONNECTED
    socket_ := none
    closePending := false
    threadBuffer_ := []
    maxMessages := maxMessages
    recvBufSize_ := recvBufSize
    currentLine_ := none
    currentSent_ := 0
    bytesSent_ := 0
    msgsSent_ := 0
    msgsReceived_ := 0 }

/-- A connection constructed without explicit options: both sizes take the
header's default arguments. -/
def defaultClientTcpSocket : ClientTcpSocket :=
  mkClientTcpSocket defaultMaxMessages defaultRecvBufSize

/-- The optional callback slots of the constructor (`tcp_socket.h` lines
52-65), each `none` when the caller passes no handler. A handler is modelled
as a function from the callback's (uncurried) arguments to the actions it
performs. -/
structure CallbackSlots where
  onConnectionResult_ : Option (ConnectionResult × List (List Nat) → List Event)
  onDisconnected_ : Option (Bool → List Event)
  onWriteResult_ : Option (Nat × List Nat × Nat → List Event)
  onReceivedData_ : Option (List Nat → List Event)
  onException_ : Option (Nat → List Event)

/-- The slots of a connection constructed without explicit options: every
slot unset (the header defaults each to `nullptr`). -/
def defaultSlots : CallbackSlots :=
  { onConnectionResult_ := none
    onDisconnected_ := none
    onWriteResult_ := none
    onReceivedData_ := none
    onException_ := none }

/-- Modelled from the spec: callback dispatch is not under `src/`; invoking a
slot runs the handler when one is set and is a no-op producing no actions (and
no failure) when the slot is unset. -/
def invokeCallback {α : Type} (slot : Option (α → List Event)) (x : α) : List Event :=
  match slot with
  | some h => h x
  | none => []

/-- Modelled from the spec: the body of `canSendMessages` is not under `src/`;
true iff the state is CONNECTED, the pending-close flag is not set and the
send-queue has spare capacity (spec section 4.4). -/
def canSendMessages (s : ClientTcpSocket) : Bool :=
  decide (s.state_ = ClientTcpSocketState.CONNECTED) &&
    !s.closePending &&
    decide (s.threadBuffer_.length < s.maxMessages)

/-- Modelled from the spec: the bodies of the `write` overloads are not under
`src/`; a write is rejected at the queue-push boundary when not CONNECTED,
when the pending-close flag is set, or when the queue is at capacity, without
blocking and without mutating any state; otherwise ownership of the buffer
transfers to the queue and the call returns true (spec sections 4.2, 4.6, 6). -/
def write (s : ClientTcpSocket) (data : List Nat) : ClientTcpSocket × Bool :=
  if canSendMessages s then
    ({ s with threadBuffer_ := s.threadBuffer_ ++ [data] }, true)
  else (s, false)

/-- The overload `write(const std::string &)`: pushes the string's bytes. -/
def writeStr (s : ClientTcpSocket) (data : List Nat) : ClientTcpSocket × Bool :=
  write s data

/-- The overload `write(const char *, size_t)`: pushes the first `size` bytes
at the pointer. -/
def writePtr (s : ClientTcpSocket) (data : List Nat) (size : Nat) :
    ClientTcpSocket × Bool :=
  write s (data.take size)

/-- The overload `write(std::string &&)`: moves the string's bytes into the
queue; the enqueued content is the same as for the copying overload. -/
def writeMove (s : ClientTcpSocket) (data : List Nat) : ClientTcpSocket × Bool :=
  write s data

/-- A sequence of `write` calls, returning the final connection and the list
of the calls' boolean results in call order. -/
def writeSeq : ClientTcpSocket → List (List Nat) → ClientTcpSocket × List Bool
  | s, [] => (s, [])
  | s, d :: rest =>
      ((writeSeq (write s d).1 rest).1,
       (write s d).2 :: (writeSeq (write s d).1 rest).2)

/-- Modelled from the spec: the body of `connect` is not under `src/`; from
DISCONNECTED it allocates a non-blocking socket (the fresh handle is the
argument `fd`) and moves to CONNECTING; from any other state it is a no-op
that changes nothing and fires no callback (spec sections 4.4, 6). -/
def connect (fd : Nat) (s : ClientTcpSocket) : ClientTcpSocket × List Event :=
  if s.state_ = ClientTcpSocketState.DISCONNECTED then
    ({ s with state_ := ClientTcpSocketState.CONNECTING
              socket_ := some fd
              closePending := false }, [])
  else (s, [])

/-- Modelled from the spec: the body of `requestClose` is not under `src/`;
it sets the pending-close flag, after which no further writes are accepted,
and moves a CONNECTED connection to DISCONNECTING; a repeated call has no
further effect (spec sections 3, 4.4, 8). -/
def requestClose (s : ClientTcpSocket) : ClientTcpSocket :=
  if s.closePending then s
  else
    { s with closePending := true
             state_ :=
               if s.state_ = ClientTcpSocketState.CONNECTED then
                 ClientTcpSocketState.DISCONNECTING
               else s.state_ }

/-- Modelled from the spec: the body of `closeFd` is not under `src/`; the
single release point of the socket handle: it invalidates the handle and, when
one was held, performs exactly one close of it (spec section 9, first note). -/
def closeFd (s : ClientTcpSocket) : ClientTcpSocket × List Event :=
  ({ s with socket_ := none },
   match s.socket_ with
   | some fd => [Event.fdClosed fd]
   | none => [])

/-- Modelled from the spec: the body of `handleDisconnection` is not under
`src/`; reached from the CONNECTED / DISCONNECTING side on a fatal I/O error,
a peer-initiated close or a completed requested close: it closes the socket
exactly once, enters DISCONNECTED and invokes the disconnect callback with the
`fromPeer` flag (spec section 4.4). -/
def handleDisconnection (fromPeer : Bool) (s : ClientTcpSocket) :
    ClientTcpSocket × List Event :=
  ({ (closeFd s).1 with state_ := ClientTcpSocketState.DISCONNECTED
                        closePending := false },
   (closeFd s).2 ++ [Event.disconnected fromPeer])

/-- Modelled from the spec: the kind of pending OS error a readiness event in
state CONNECTING can observe on the socket (spec section 4.4): connection
refused, connection reset, a name-resolution failure surfaced earlier, no
completion within the bounded interval, or any other OS code. -/
inductive OsConnectError where
  | refused
  | reset
  | hostUnknown
  | timedOut
  | other (code : Nat)
  deriving DecidableEq, Repr

/-- Modelled from the spec: the connect-error classification of spec section
4.4: refused/reset map to COULD_NOT_CONNECT, a name-resolution failure to
HOST_UNKNOWN, a missed completion interval to TIMEOUT, anything else to
UNKNOWN_ERROR. -/
def classifyConnectError : OsConnectError → ConnectionResult
  | .refused => ConnectionResult.COULD_NOT_CONNECT
  | .reset => ConnectionResult.COULD_NOT_CONNECT
  | .hostUnknown => ConnectionResult.HOST_UNKNOWN
  | .timedOut => ConnectionResult.TIMEOUT
  | .other _ => ConnectionResult.UNKNOWN_ERROR

/-- Modelled from the spec: the body of `handleConnectionResult` is not under
`src/`; on a readiness event in state CONNECTING it inspects the socket's
pending error: no error means the connection enters CONNECTED and the
connection-result callback fires with SUCCESS; an error is classified, the
connection-result callback fires with the classification, the socket is
closed and the state returns to DISCONNECTED (spec section 4.4). -/
def handleConnectionResult (pendingError : Option OsConnectError)
    (s : ClientTcpSocket) : ClientTcpSocket × List Event :=
  match pendingError with
  | none =>
      ({ s with state_ := ClientTcpSocketState.CONNECTED },
       [Event.connectionResult ConnectionResult.SUCCESS])
  | some e =>
      ({ (closeFd s).1 with state_ := ClientTcpSocketState.DISCONNECTED },
       [Event.connectionResult (classifyConnectError e)] ++ (closeFd s).2)

/-- Modelled from the spec: one pass of the read path's receive loop (spec
section 4.5), folded over the chunks the successive non-blocking receives
yield: each non-empty receive invokes the data callback with the received
bytes and increments the message-received counter once; an empty chunk yields
no data and no increment. Returns the counter increment and the events. -/
def readChunks : List (List Nat) → Nat × List Event
  | [] => (0, [])
  | c :: rest =>
      if c = [] then readChunks rest
      else
        ((readChunks rest).1 + 1, Event.receivedData c :: (readChunks rest).2)

/-- Modelled from the spec: the body of `handleReadReady` is not under `src/`;
on readable-readiness while CONNECTED the connection drains the chunks the
socket yields, delivering each to the data callback in order, and when the
peer has closed its end (a zero-length read) it performs the disconnection
with `fromPeer = true` (spec section 4.5). -/
def handleReadReady (s : ClientTcpSocket) (chunks : List (List Nat))
    (peerClosed : Bool) : ClientTcpSocket × List Event :=
  if peerClosed then
    ((handleDisconnection true
        { s with msgsReceived_ := s.msgsReceived_ + (readChunks chunks).1 }).1,
     (readChunks chunks).2 ++
       (handleDisconnection true
         { s with msgsReceived_ := s.msgsReceived_ + (readChunks chunks).1 }).2)
  else
    ({ s with msgsReceived_ := s.msgsReceived_ + (readChunks chunks).1 },
     (readChunks chunks).2)

/-- Modelled from the spec: the accounting of the write path when every send
completes fully (spec section 4.6 outcome (a)), folded over the queued
buffers: each buffer is sent whole, the byte and message counters advance and
the write-result callback fires with error 0, the buffer and its length. -/
def drainList (bytes msgs : Nat) : List (List Nat) → Nat × Nat × List Event
  | [] => (bytes, msgs, [])
  | buf :: rest =>
      ((drainList (bytes + buf.length) (msgs + 1) rest).1,
       (drainList (bytes + buf.length) (msgs + 1) rest).2.1,
       Event.writeResult 0 buf buf.length ::
         (drainList (bytes + buf.length) (msgs + 1) rest).2.2)

/-- Modelled from the spec: the body of `handleWriteReady` is not under
`src/`; this is its behaviour in the run where every queued buffer is sent
fully under one readiness event (spec section 4.6 outcome (a), iterated:
after a full send the next buffer is popped immediately). -/
def handleWriteReadyAllOk (s : ClientTcpSocket) : ClientTcpSocket × List Event :=
  ({ s with threadBuffer_ := []
            bytesSent_ := (drainList s.bytesSent_ s.msgsSent_ s.threadBuffer_).1
            msgsSent_ := (drainList s.bytesSent_ s.msgsSent_ s.threadBuffer_).2.1 },
   (drainList s.bytesSent_ s.msgsSent_ s.threadBuffer_).2.2)

/-- The outcome of the send attempt for one queued buffer: a full send, or an
OS error with the number of bytes that went out before the failure. -/
inductive SendOutcome where
  | ok
  | err (code : Nat) (sent : Nat)
  deriving DecidableEq, Repr

/-- The write-result callback invocation a buffer's attempt produces: error 0
and the full length on success, the OS code and the byte count sent before
the failure otherwise (spec section 4.6). -/
def outcomeEvent (buf : List Nat) : SendOutcome → Event
  | .ok => Event.writeResult 0 buf buf.length
  | .err code sent => Event.writeResult code buf sent

/-- Modelled from the spec: the drain performed after `requestClose` (spec
section 8): every still-queued buffer is attempted, each receiving its own
write-result callback reporting success or error, and only then is the
disconnection performed with `fromPeer = false`. -/
def closeDrain (s : ClientTcpSocket) (outs : List SendOutcome) :
    ClientTcpSocket × List Event :=
  ((handleDisconnection false { s with threadBuffer_ := [] }).1,
   List.zipWith outcomeEvent s.threadBuffer_ outs ++
     (handleDisconnection false { s with threadBuffer_ := [] }).2)

/-- A connected connection with an empty queue, used as a concrete input. -/
def sampleSocket : ClientTcpSocket :=
  { state_ := ClientTcpSocketState.CONNECTED
    socket_ := some 5
    closePending := false
    threadBuffer_ := []
    maxMessages := 32
    recvBufSize_ := 65536
    currentLine_ := none
    currentSent_ := 0
    bytesSent_ := 0
    msgsSent_ := 0
    msgsReceived_ := 0 }

/-- A connection amid a connect attempt, used as a concrete input. -/
def sampleConnecting : ClientTcpSocket :=
  { sampleSocket with state_ := ClientTcpSocketState.CONNECTING
                      socket_ := some 4 }

/-- A connected connection with two queued buffers, used as a concrete
input. -/
def sampleQueued : ClientTcpSocket :=
  { sampleSocket with socket_ := some 9
                      threadBuffer_ := [[1, 2], [3]] }

/-- `canSendMessages` unfolded to its three propositional conjuncts. -/
theorem canSendMessages_iff (s : ClientTcpSocket) :
    canSendMessages s = true ↔
      s.state_ = ClientTcpSocketState.CONNECTED ∧ s.closePending = false ∧
        s.threadBuffer_.length < s.maxMessages := by
  simp [canSendMessages, Bool.and_eq_true, Bool.not_eq_true', and_assoc]

/-- A write accepted by `canSendMessages` appends the buffer and reports
true. -/
theorem write_pos (s : ClientTcpSocket) (d : List Nat)
    (h : canSendMessages s = true) :
    write s d = ({ s with threadBuffer_ := s.threadBuffer_ ++ [d] }, true) := by
  simp [write, h]

/-- A write rejected by `canSendMessages` mutates nothing and reports
false. -/
theorem write_neg (s : ClientTcpSocket) (d : List Nat)
    (h : canSendMessages s = false) :
    write s d = (s, false) := by
  simp [write, h]

/-- `requestClose` leaves the pending-close flag set. -/
theorem requestClose_closePending (s : ClientTcpSocket) :
    (requestClose s).closePending = true := by
  unfold requestClose
  split <;> simp_all

/-- `requestClose` does not touch the send-queue. -/
theorem requestClose_threadBuffer (s : ClientTcpSocket) :
    (requestClose s).threadBuffer_ = s.threadBuffer_ := by
  unfold requestClose
  split <;> rfl

/-- `requestClose` does not touch the socket handle. -/
theorem requestClose_socket (s : ClientTcpSocket) :
    (requestClose s).socket_ = s.socket_ := by
  unfold requestClose
  split <;> rfl

/-- After `requestClose` the pending-close flag rejects every write, leaving
the connection untouched. -/
theorem write_after_requestClose (s : ClientTcpSocket) (d : List Nat) :
    write (requestClose s) d = (requestClose s, false) := by
  apply write_neg
  simp [canSendMessages, requestClose_closePending]

/-- The boolean results of a write sequence: with the connection CONNECTED and
no close pending, the i-th call succeeds exactly when the queue still has
room for it. -/
theorem writeSeq_results (s : ClientTcpSocket) (bufs : List (List Nat))
    (hs : s.state_ = ClientTcpSocketState.CONNECTED)
    (hc : s.closePending = false) :
    (writeSeq s bufs).2 =
      (List.range bufs.length).map
        (fun i => decide (s.threadBuffer_.length + i < s.maxMessages)) := by
  induction bufs generalizing s with
  | nil => simp [writeSeq]
  | cons d rest ih =>
    rw [List.length_cons, List.range_succ_eq_map, List.map_cons, List.map_map]
    by_cases hq : s.threadBuffer_.length < s.maxMessages
    · have hcan : canSendMessages s = true := by
        simp [canSendMessages, hs, hc, hq]
      have ih' := ih { s with threadBuffer_ := s.threadBuffer_ ++ [d] } hs hc
      simp only [writeSeq, write_pos s d hcan, ih', List.length_append,
        List.length_singleton]
      congr 1
      · simp [hq]
      · refine List.map_congr_left ?_
        intro i _
        simp only [Function.comp]
        exact decide_eq_decide.mpr (by omega)
    · have hcan : canSendMessages s = false := by
        simp [canSendMessages, hq]
      have ih' := ih s hs hc
      simp only [writeSeq, write_neg s d hcan, ih']
      congr 1
      · simp [hq]
      · refine List.map_congr_left ?_
        intro i _
        simp only [Function.comp]
        have h1 : ¬ (s.threadBuffer_.length + i < s.maxMessages) := by omega
        have h2 : ¬ (s.threadBuffer_.length + (i + 1) < s.maxMessages) := by
          omega
        simp [h1, h2]

/-- A write sequence that fits entirely within the queue's spare room appends
every buffer in order and changes nothing else. -/
theorem writeSeq_state (s : ClientTcpSocket) (bufs : List (List Nat))
    (hs : s.state_ = ClientTcpSocketState.CONNECTED)
    (hc : s.closePending = false)
    (hlen : s.threadBuffer_.length + bufs.length ≤ s.maxMessages) :
    (writeSeq s bufs).1 = { s with threadBuffer_ := s.threadBuffer_ ++ bufs } := by
  induction bufs generalizing s with
  | nil => simp [writeSeq]
  | cons d rest ih =>
    have hq : s.threadBuffer_.length < s.maxMessages := by
      simp only [List.length_cons] at hlen
      omega
    have hcan : canSendMessages s = true := by
      simp [canSendMessages, hs, hc, hq]
    have ih' := ih { s with threadBuffer_ := s.threadBuffer_ ++ [d] } hs hc
      (by simp only [List.length_append, List.length_singleton]
          simp only [List.length_cons] at hlen
          omega)
    simp [writeSeq, write_pos s d hcan, ih']

/-- `write` never changes the queue capacity. -/
theorem write_maxMessages (s : ClientTcpSocket) (d : List Nat) :
    (write s d).1.maxMessages = s.maxMessages := by
  unfold write
  split <;> rfl

/-- A single `write` keeps the queue within capacity. -/
theorem write_length_le (s : ClientTcpSocket) (d : List Nat)
    (h : s.threadBuffer_.length ≤ s.maxMessages) :
    (write s d).1.threadBuffer_.length ≤ s.maxMessages := by
  unfold write
  split <;> rename_i hcan
  · have := (canSendMessages_iff s).mp hcan
    simp only [List.length_append, List.length_singleton]
    omega
  · exact h

/-- Any write sequence keeps the queue within capacity. -/
theorem writeSeq_length_le (s : ClientTcpSocket) (bufs : List (List Nat))
    (h : s.threadBuffer_.length ≤ s.maxMessages) :
    (writeSeq s bufs).1.threadBuffer_.length ≤ s.maxMessages := by
  induction bufs generalizing s with
  | nil => simpa [writeSeq] using h
  | cons d rest ih =>
    simp only [writeSeq]
    have h1 : (write s d).1.threadBuffer_.length ≤ (write s d).1.maxMessages := by
      rw [write_maxMessages]
      exact write_length_le s d h
    have h2 := ih (write s d).1 h1
    rw [write_maxMessages] at h2
    exact h2

/-- Characterization of the full-send drain: the counters advance by the
total length and the buffer count, and one success callback is produced per
buffer in order. -/
theorem drainList_spec (bytes msgs : Nat) (l : List (List Nat)) :
    drainList bytes msgs l =
      (bytes + (l.map List.length).sum, msgs + l.length,
       l.map (fun b => Event.writeResult 0 b b.length)) := by
  induction l generalizing bytes msgs with
  | nil => simp [drainList]
  | cons b rest ih =>
    simp only [drainList, ih, List.map_cons, List.sum_cons, List.length_cons,
      Prod.mk.injEq, and_true]
    omega

/-- Characterization of the read loop: the counter increment counts the
non-empty chunks and the events deliver exactly the non-empty chunks in
order. -/
theorem readChunks_eq (chunks : List (List Nat)) :
    readChunks chunks =
      (chunks.countP (fun c => !decide (c = [])),
       (chunks.filter (fun c => !decide (c = []))).map Event.receivedData) := by
  induction chunks with
  | nil => simp [readChunks]
  | cons c rest ih =>
    by_cases hc : c = []
    · simp [readChunks, hc, ih, List.countP_cons, List.filter_cons]
    · simp [readChunks, hc, ih, List.countP_cons, List.filter_cons]

/-- Extracting the delivered bytes back out of a list of data events yields
the chunks themselves. -/
theorem filterMap_receivedData (l : List (List Nat)) :
    (l.map Event.receivedData).filterMap Event.receivedBytes = l := by
  induction l with
  | nil => rfl
  | cons c rest ih => simp [Event.receivedBytes, ih]

/-- Dropping the empty chunks does not change the concatenated bytes. -/
theorem flatten_filter_ne (l : List (List Nat)) :
    ((l.filter (fun c => !decide (c = []))).flatten) = l.flatten := by
  induction l with
  | nil => rfl
  | cons c rest ih =>
    by_cases hc : c = [] <;> simp [List.filter_cons, hc, ih]

/-- The last element of a list extended by two elements. -/
theorem getLast?_append_two {α : Type} (l : List α) (a b : α) :
    (l ++ [a, b]).getLast? = some b := by
  have h : l ++ [a, b] = (l ++ [a]) ++ [b] := by simp
  rw [h, List.getLast?_concat]

/-- No data event carries a disconnect: delivering received chunks never
counts as a disconnect callback. -/
theorem countP_isDisconnected_map_receivedData (l : List (List Nat)) :
    (l.map Event.receivedData).countP Event.isDisconnected = 0 := by
  induction l with
  | nil => rfl
  | cons c rest ih => simp [List.countP_cons, Event.isDisconnected, ih]

/-- C1: for every state of the connection, `canSendMessages` returns true if
and only if the state is CONNECTED, the pending-close flag is not set, and
the send-queue has fewer than `maxMessages` entries. -/
theorem claim_C1 (s : ClientTcpSocket) :
    canSendMessages s = true ↔
      s.state_ = ClientTcpSocketState.CONNECTED ∧ s.closePending = false ∧
        s.threadBuffer_.length < s.maxMessages :=
  canSendMessages_iff s

/-- C2: while CONNECTED with no close pending, the i-th `write` of a sequence
returns true exactly while the queue has room for it (so each call up to the
`maxMessages` capacity returns true and later calls return false); a `write`
against a full queue returns false without mutating the connection; and the
send-queue never exceeds `maxMessages` entries. -/
theorem claim_C2 (s : ClientTcpSocket) (bufs : List (List Nat))
    (hs : s.state_ = ClientTcpSocketState.CONNECTED)
    (hc : s.closePending = false) :
    (writeSeq s bufs).2 =
      (List.range bufs.length).map
        (fun i => decide (s.threadBuffer_.length + i < s.maxMessages)) ∧
    (∀ d : List Nat, s.maxMessages ≤ s.threadBuffer_.length →
      write s d = (s, false)) ∧
    (s.threadBuffer_.length ≤ s.maxMessages →
      (writeSeq s bufs).1.threadBuffer_.length ≤ s.maxMessages) := by
  refine ⟨writeSeq_results s bufs hs hc, ?_,
    fun h => writeSeq_length_le s bufs h⟩
  intro d hfull
  apply write_neg
  have h1 : ¬ s.threadBuffer_.length < s.maxMessages := by omega
  simp [canSendMessages, h1]

/-- Witness for C2 at a concrete connected socket and two buffers. -/
theorem claim_C2_witness :
    sampleSocket.state_ = ClientTcpSocketState.CONNECTED ∧
    sampleSocket.closePending = false ∧
    ((writeSeq sampleSocket [[1], [2]]).2 =
      (List.range 2).map
        (fun i =>
          decide (sampleSocket.threadBuffer_.length + i <
            sampleSocket.maxMessages)) ∧
     (∀ d : List Nat,
        sampleSocket.maxMessages ≤ sampleSocket.threadBuffer_.length →
          write sampleSocket d = (sampleSocket, false)) ∧
     (sampleSocket.threadBuffer_.length ≤ sampleSocket.maxMessages →
        (writeSeq sampleSocket [[1], [2]]).1.threadBuffer_.length ≤
          sampleSocket.maxMessages)) :=
  ⟨rfl, rfl, claim_C2 sampleSocket [[1], [2]] rfl rfl⟩

/-- C3: for N writes all successfully sent on a connected socket with an
empty queue, the write-result callback fires exactly N times, in push order,
each with error 0 and a byte count equal to that buffer's length; afterwards
`bytesSent` grew by the sum of the lengths and `msgsSent` by N. -/
theorem claim_C3 (s : ClientTcpSocket) (bufs : List (List Nat))
    (hs : s.state_ = ClientTcpSocketState.CONNECTED)
    (hc : s.closePending = false) (hq : s.threadBuffer_ = [])
    (hlen : bufs.length ≤ s.maxMessages) :
    (handleWriteReadyAllOk (writeSeq s bufs).1).2 =
      bufs.map (fun b => Event.writeResult 0 b b.length) ∧
    (handleWriteReadyAllOk (writeSeq s bufs).1).1.bytesSent_ =
      s.bytesSent_ + (bufs.map List.length).sum ∧
    (handleWriteReadyAllOk (writeSeq s bufs).1).1.msgsSent_ =
      s.msgsSent_ + bufs.length := by
  have hst := writeSeq_state s bufs hs hc (by rw [hq]; simpa)
  rw [hst]
  simp [handleWriteReadyAllOk, drainList_spec, hq]

/-- Witness for C3 at a concrete connected socket and two buffers. -/
theorem claim_C3_witness :
    sampleSocket.state_ = ClientTcpSocketState.CONNECTED ∧
    sampleSocket.threadBuffer_ = [] ∧
    ((handleWriteReadyAllOk (writeSeq sampleSocket [[1, 2], [3, 4, 5]]).1).2 =
      ([[1, 2], [3, 4, 5]] : List (List Nat)).map
        (fun b => Event.writeResult 0 b b.length) ∧
     (handleWriteReadyAllOk
        (writeSeq sampleSocket [[1, 2], [3, 4, 5]]).1).1.bytesSent_ =
       sampleSocket.bytesSent_ +
         (([[1, 2], [3, 4, 5]] : List (List Nat)).map List.length).sum ∧
     (handleWriteReadyAllOk
        (writeSeq sampleSocket [[1, 2], [3, 4, 5]]).1).1.msgsSent_ =
       sampleSocket.msgsSent_ + 2) :=
  ⟨rfl, rfl, claim_C3 sampleSocket [[1, 2], [3, 4, 5]] rfl rfl rfl (by decide)⟩

/-- C4 counterexample: a readiness event reporting a refused connection moves
`sampleConnecting` into DISCONNECTED, yet zero disconnect callbacks fire on
that transition; so not every transition into DISCONNECTED invokes the
disconnect callback. -/
theorem claim_C4_counterexample :
    (handleConnectionResult (some OsConnectError.refused)
        sampleConnecting).1.state_ = ClientTcpSocketState.DISCONNECTED ∧
    (handleConnectionResult (some OsConnectError.refused)
        sampleConnecting).2.countP Event.isDisconnected = 0 := by
  decide

/-- C4 as amended: every transition into DISCONNECTED closes the socket
handle exactly once; the transitions through `handleDisconnection` (fatal I/O
error, peer-initiated close, completed requested close) also fire the
disconnect callback exactly once, while the connect-error transition fires
the connection-result callback exactly once and no disconnect callback. -/
theorem claim_C4 (s : ClientTcpSocket) (fd : Nat) (fromPeer : Bool)
    (e : OsConnectError) (hfd : s.socket_ = some fd) :
    ((handleDisconnection fromPeer s).1.state_ =
        ClientTcpSocketState.DISCONNECTED ∧
     (handleDisconnection fromPeer s).2.countP Event.isFdClosed = 1 ∧
     (handleDisconnection fromPeer s).2.countP Event.isDisconnected = 1) ∧
    ((handleConnectionResult (some e) s).1.state_ =
        ClientTcpSocketState.DISCONNECTED ∧
     (handleConnectionResult (some e) s).2.countP Event.isFdClosed = 1 ∧
     (handleConnectionResult (some e) s).2.countP Event.isDisconnected = 0 ∧
     (handleConnectionResult (some e) s).2.countP
       Event.isConnectionResult = 1) := by
  simp [handleDisconnection, handleConnectionResult, closeFd, hfd,
    Event.isFdClosed, Event.isDisconnected, Event.isConnectionResult,
    List.countP_cons, List.countP_append]

/-- Witness for the amended C4 at a concrete connecting socket. -/
theorem claim_C4_witness :
    sampleConnecting.socket_ = some 4 ∧
    (((handleDisconnection false sampleConnecting).1.state_ =
        ClientTcpSocketState.DISCONNECTED ∧
      (handleDisconnection false sampleConnecting).2.countP
        Event.isFdClosed = 1 ∧
      (handleDisconnection false sampleConnecting).2.countP
        Event.isDisconnected = 1) ∧
     ((handleConnectionResult (some OsConnectError.refused)
         sampleConnecting).1.state_ = ClientTcpSocketState.DISCONNECTED ∧
      (handleConnectionResult (some OsConnectError.refused)
         sampleConnecting).2.countP Event.isFdClosed = 1 ∧
      (handleConnectionResult (some OsConnectError.refused)
         sampleConnecting).2.countP Event.isDisconnected = 0 ∧
      (handleConnectionResult (some OsConnectError.refused)
         sampleConnecting).2.countP Event.isConnectionResult = 1)) :=
  ⟨rfl, claim_C4 sampleConnecting 4 false OsConnectError.refused rfl⟩

/-- C5: a readiness event in CONNECTING with no pending error moves the
connection to CONNECTED and fires the connection-result callback once with
SUCCESS; with a pending error it fires the connection-result callback exactly
once with the classification (refused/reset to COULD_NOT_CONNECT, name
resolution to HOST_UNKNOWN, missed completion interval to TIMEOUT, anything
else to UNKNOWN_ERROR), closes the socket and returns to DISCONNECTED. -/
theorem claim_C5 (s : ClientTcpSocket) (fd : Nat) (e : OsConnectError)
    (hs : s.state_ = ClientTcpSocketState.CONNECTING)
    (hfd : s.socket_ = some fd) :
    ((handleConnectionResult none s).1.state_ =
        ClientTcpSocketState.CONNECTED ∧
     (handleConnectionResult none s).2 =
       [Event.connectionResult ConnectionResult.SUCCESS]) ∧
    ((handleConnectionResult (some e) s).1.state_ =
        ClientTcpSocketState.DISCONNECTED ∧
     (handleConnectionResult (some e) s).1.socket_ = none ∧
     (handleConnectionResult (some e) s).2 =
       [Event.connectionResult (classifyConnectError e),
        Event.fdClosed fd]) ∧
    (classifyConnectError OsConnectError.refused =
        ConnectionResult.COULD_NOT_CONNECT ∧
     classifyConnectError OsConnectError.reset =
        ConnectionResult.COULD_NOT_CONNECT ∧
     classifyConnectError OsConnectError.hostUnknown =
        ConnectionResult.HOST_UNKNOWN ∧
     classifyConnectError OsConnectError.timedOut =
        ConnectionResult.TIMEOUT ∧
     ∀ c : Nat, classifyConnectError (OsConnectError.other c) =
        ConnectionResult.UNKNOWN_ERROR) := by
  refine ⟨⟨rfl, rfl⟩, ⟨rfl, rfl, ?_⟩, rfl, rfl, rfl, rfl, fun c => rfl⟩
  simp [handleConnectionResult, closeFd, hfd]

/-- Witness for C5 at a concrete connecting socket and a timeout error. -/
theorem claim_C5_witness :
    sampleConnecting.state_ = ClientTcpSocketState.CONNECTING ∧
    sampleConnecting.socket_ = some 4 ∧
    (((handleConnectionResult none sampleConnecting).1.state_ =
        ClientTcpSocketState.CONNECTED ∧
      (handleConnectionResult none sampleConnecting).2 =
        [Event.connectionResult ConnectionResult.SUCCESS]) ∧
     ((handleConnectionResult (some OsConnectError.timedOut)
         sampleConnecting).1.state_ = ClientTcpSocketState.DISCONNECTED ∧
      (handleConnectionResult (some OsConnectError.timedOut)
         sampleConnecting).1.socket_ = none ∧
      (handleConnectionResult (some OsConnectError.timedOut)
         sampleConnecting).2 =
        [Event.connectionResult
           (classifyConnectError OsConnectError.timedOut),
         Event.fdClosed 4]) ∧
     (classifyConnectError OsConnectError.refused =
         ConnectionResult.COULD_NOT_CONNECT ∧
      classifyConnectError OsConnectError.reset =
         ConnectionResult.COULD_NOT_CONNECT ∧
      classifyConnectError OsConnectError.hostUnknown =
         ConnectionResult.HOST_UNKNOWN ∧
      classifyConnectError OsConnectError.timedOut =
         ConnectionResult.TIMEOUT ∧
      ∀ c : Nat, classifyConnectError (OsConnectError.other c) =
         ConnectionResult.UNKNOWN_ERROR)) :=
  ⟨rfl, rfl, claim_C5 sampleConnecting 4 OsConnectError.timedOut rfl rfl⟩

/-- C6: `requestClose` is idempotent in every state, and `connect` while
already CONNECTING or CONNECTED is a no-op that changes no state and fires no
callback. -/
theorem claim_C6 (s : ClientTcpSocket) (fd : Nat) :
    requestClose (requestClose s) = requestClose s ∧
    ((s.state_ = ClientTcpSocketState.CONNECTING ∨
      s.state_ = ClientTcpSocketState.CONNECTED) → connect fd s = (s, [])) := by
  constructor
  · by_cases h : s.closePending
    · simp [requestClose, h]
    · simp [requestClose, h]
  · intro h
    have h1 : ¬ s.state_ = ClientTcpSocketState.DISCONNECTED := by
      rcases h with h | h <;> simp [h]
    simp [connect, h1]

/-- Witness for C6 at a concrete connected socket. -/
theorem claim_C6_witness :
    (sampleSocket.state_ = ClientTcpSocketState.CONNECTING ∨
      sampleSocket.state_ = ClientTcpSocketState.CONNECTED) ∧
    requestClose (requestClose sampleSocket) = requestClose sampleSocket ∧
    connect 7 sampleSocket = (sampleSocket, []) :=
  ⟨Or.inr rfl, (claim_C6 sampleSocket 7).1,
   (claim_C6 sampleSocket 7).2 (Or.inr rfl)⟩

/-- C7: when `requestClose` finds K buffers still queued, the close drain
attempts all K of them, each producing its own write-result callback
reporting success or error, and only after them does the disconnect callback
fire with `fromPeer = false`; and every `write` issued after `requestClose`
returns false without mutating the connection. -/
theorem claim_C7 (s : ClientTcpSocket) (fd : Nat) (outs : List SendOutcome)
    (hfd : s.socket_ = some fd)
    (hlen : outs.length = s.threadBuffer_.length) :
    (closeDrain (requestClose s) outs).2 =
      List.zipWith outcomeEvent s.threadBuffer_ outs ++
        [Event.fdClosed fd, Event.disconnected false] ∧
    (List.zipWith outcomeEvent s.threadBuffer_ outs).length =
      s.threadBuffer_.length ∧
    (closeDrain (requestClose s) outs).2.getLast? =
      some (Event.disconnected false) ∧
    ∀ d : List Nat, write (requestClose s) d = (requestClose s, false) := by
  have h1 : (closeDrain (requestClose s) outs).2 =
      List.zipWith outcomeEvent s.threadBuffer_ outs ++
        [Event.fdClosed fd, Event.disconnected false] := by
    simp [closeDrain, handleDisconnection, closeFd, requestClose_threadBuffer,
      requestClose_socket, hfd]
  refine ⟨h1, ?_, ?_, fun d => write_after_requestClose s d⟩
  · rw [List.length_zipWith, hlen, Nat.min_self]
  · rw [h1]
    exact getLast?_append_two _ _ _

/-- Witness for C7 at a concrete socket holding two queued buffers, one
attempt succeeding and one failing. -/
theorem claim_C7_witness :
    sampleQueued.socket_ = some 9 ∧
    ([SendOutcome.ok, SendOutcome.err 32 1].length =
      sampleQueued.threadBuffer_.length) ∧
    ((closeDrain (requestClose sampleQueued)
        [SendOutcome.ok, SendOutcome.err 32 1]).2 =
      List.zipWith outcomeEvent sampleQueued.threadBuffer_
          [SendOutcome.ok, SendOutcome.err 32 1] ++
        [Event.fdClosed 9, Event.disconnected false] ∧
     (List.zipWith outcomeEvent sampleQueued.threadBuffer_
        [SendOutcome.ok, SendOutcome.err 32 1]).length =
       sampleQueued.threadBuffer_.length ∧
     (closeDrain (requestClose sampleQueued)
        [SendOutcome.ok, SendOutcome.err 32 1]).2.getLast? =
       some (Event.disconnected false) ∧
     ∀ d : List Nat, write (requestClose sampleQueued) d =
       (requestClose sampleQueued, false)) :=
  ⟨rfl, rfl,
   claim_C7 sampleQueued 9 [SendOutcome.ok, SendOutcome.err 32 1] rfl rfl⟩

/-- C8: a connection constructed without explicit options has a write-queue
capacity of 32 and a receive-buffer size of 65536 bytes, and invoking any
callback slot left unset is a harmless no-op producing no actions. -/
theorem claim_C8 :
    defaultClientTcpSocket.maxMessages = 32 ∧
    defaultClientTcpSocket.recvBufSize_ = 65536 ∧
    (∀ r : ConnectionResult × List (List Nat),
      invokeCallback defaultSlots.onConnectionResult_ r = []) ∧
    (∀ b : Bool, invokeCallback defaultSlots.onDisconnected_ b = []) ∧
    (∀ w : Nat × List Nat × Nat,
      invokeCallback defaultSlots.onWriteResult_ w = []) ∧
    (∀ d : List Nat, invokeCallback defaultSlots.onReceivedData_ d = []) ∧
    (∀ e : Nat, invokeCallback defaultSlots.onException_ e = []) := by
  refine ⟨rfl, rfl, ?_, ?_, ?_, ?_, ?_⟩ <;> intro x <;> rfl

/-- C9: when the connected peer closes its end after its bytes arrive in the
given chunks, the data callbacks deliver exactly those bytes in
concatenation-preserving order, exactly one disconnect callback fires with
`fromPeer = true` and it fires last, the message-received counter grows once
per receive that yields data, and the connection ends DISCONNECTED. -/
theorem claim_C9 (s : ClientTcpSocket) (fd : Nat) (chunks : List (List Nat))
    (hs : s.state_ = ClientTcpSocketState.CONNECTED)
    (hfd : s.socket_ = some fd) :
    ((handleReadReady s chunks true).2.filterMap Event.receivedBytes).flatten =
      chunks.flatten ∧
    (handleReadReady s chunks true).2.countP Event.isDisconnected = 1 ∧
    (handleReadReady s chunks true).2.getLast? =
      some (Event.disconnected true) ∧
    (handleReadReady s chunks true).1.msgsReceived_ =
      s.msgsReceived_ + chunks.countP (fun c => !decide (c = [])) ∧
    (handleReadReady s chunks true).1.state_ =
      ClientTcpSocketState.DISCONNECTED := by
  have hev : (handleReadReady s chunks true).2 =
      ((chunks.filter (fun c => !decide (c = []))).map Event.receivedData) ++
        [Event.fdClosed fd, Event.disconnected true] := by
    simp [handleReadReady, handleDisconnection, closeFd, readChunks_eq, hfd]
  refine ⟨?_, ?_, ?_, ?_, ?_⟩
  · rw [hev, List.filterMap_append, filterMap_receivedData]
    simp [Event.receivedBytes, flatten_filter_ne]
  · rw [hev]
    simp [List.countP_append, List.countP_cons, Event.isDisconnected,
      countP_isDisconnected_map_receivedData]
  · rw [hev]
    exact getLast?_append_two _ _ _
  · simp [handleReadReady, handleDisconnection, closeFd, readChunks_eq]
  · simp [handleReadReady, handleDisconnection, closeFd]

/-- Witness for C9 at a concrete connected socket and three receive chunks,
one of them empty. -/
theorem claim_C9_witness :
    sampleSocket.state_ = ClientTcpSocketState.CONNECTED ∧
    sampleSocket.socket_ = some 5 ∧
    (((handleReadReady sampleSocket [[1, 2], [], [3]] true).2.filterMap
        Event.receivedBytes).flatten =
      ([[1, 2], [], [3]] : List (List Nat)).flatten ∧
     (handleReadReady sampleSocket [[1, 2], [], [3]] true).2.countP
        Event.isDisconnected = 1 ∧
     (handleReadReady sampleSocket [[1, 2], [], [3]] true).2.getLast? =
        some (Event.disconnected true) ∧
     (handleReadReady sampleSocket [[1, 2], [], [3]] true).1.msgsReceived_ =
        sampleSocket.msgsReceived_ +
          ([[1, 2], [], [3]] : List (List Nat)).countP
            (fun c => !decide (c = [])) ∧
     (handleReadReady sampleSocket [[1, 2], [], [3]] true).1.state_ =
        ClientTcpSocketState.DISCONNECTED) :=
  ⟨rfl, rfl, claim_C9 sampleSocket 5 [[1, 2], [], [3]] rfl rfl⟩

/-- C10: the three write overloads are behaviorally equivalent: on the same
byte content in the same state they return the same boolean and enqueue the
same bytes (the pointer overload applied to the content's full length agrees
with the string overloads). -/
theorem claim_C10 (s : ClientTcpSocket) (data : List Nat) :
    writeStr s data = writeMove s data ∧
    writePtr s data data.length = writeStr s data := by
  simp [writeStr, writeMove, writePtr]

end Datacratic
